import Mathlib

/-!
Shallow embedding of the reflow-oven controller firmware
(`stm32-l476rg`: active-object runtime, time-event multiplexer, reflow
state machine, PID controller, MAX31855K thermocouple fault decoder),
together with theorems settling the specification claims about it.

Modelling conventions:
* C `float` values are modelled as rationals (`ℚ`); the float-to-unsigned
  casts of the source are modelled by truncation toward zero followed by
  reduction modulo the machine width.
* C `uint32_t` values are modelled as `Nat` with arithmetic taken
  `% 2^32` at the operations where the source can wrap.
* Hardware and RTOS side effects (PWM compare register, PWM start/stop,
  the PID sample timer, log output, events posted to the active object's
  own mailbox) are recorded as explicit fields of the controller state.
* Fallible steps (a failed assertion, an out-of-bounds table or phase
  index, which are undefined behavior in the C source) return `Option`.
-/

/-- Truncating cast of a nonnegative float reading to `uint32_t`,
as in `(uint32_t)temp_reading`.  For a nonnegative rational this is
`⌊t⌋ % 2^32`; a negative argument is undefined behavior in C and is
mapped to 0 here. -/
def u32_of_q (t : ℚ) : Nat := (Int.toNat ⌊t⌋) % 2 ^ 32

/-- Truncating cast of a float to `uint16_t`, as in `(uint16_t)pwm_value`. -/
def u16_of_q (t : ℚ) : Nat := (Int.toNat ⌊t⌋) % 2 ^ 16

/-- `uint32_t` subtraction `x - y` with wrap-around. -/
def u32_sub (x y : Nat) : Nat := (x % 2 ^ 32 + 2 ^ 32 - y % 2 ^ 32) % 2 ^ 32

/-- `uint32_t` addition `x + y` with wrap-around. -/
def u32_add (x y : Nat) : Nat := (x + y) % 2 ^ 32

/-! ## MAX31855K thermocouple driver (`reflow_oven_pid/Core/Src/MAX31855K.c`) -/

/-- Error enumeration of the MAX31855K driver. -/
inductive MAX_err where
  | MAX_ZEROS
  | MAX_SHORT_VCC
  | MAX_SHORT_GND
  | MAX_OPEN
  | MAX_OK
  | MAX_SPI_DMA_FAIL
deriving DecidableEq, Repr

open MAX_err

/-- The `switch (fault)` statement of `MAX31855K_error_check`.  The source
has no `break` between the three fault cases, so execution enters at the
first matching `case` label and then runs every later assignment until the
`default: break`.  The successive values of `max->err` are threaded
explicitly: `e1` is its value after the `case 0x4` assignment (executed
only when `fault == 4` selects that entry point), `e2` after the
`case 0x2` assignment (executed when the entry point was `0x4` or `0x2`),
`e3` after the `case 0x1` assignment. -/
def MAX31855K_fault_switch (prevErr : MAX_err) (fault : Nat) : MAX_err :=
  let e1 := if fault = 4 then MAX_SHORT_VCC else prevErr
  let e2 := if fault = 4 ∨ fault = 2 then MAX_SHORT_GND else e1
  let e3 := if fault = 4 ∨ fault = 2 ∨ fault = 1 then MAX_OPEN else e2
  e3

/-- `MAX31855K_error_check`: writes `max->err` from the raw 32-bit word
`max->data32`.  `prevErr` is the value `max->err` held before the call
(the `switch` leaves it unchanged when no `case` matches). -/
def MAX31855K_error_check (prevErr : MAX_err) (data32 : Nat) : MAX_err :=
  if data32 % 2 ^ 32 = 0 then
    MAX_ZEROS
  else if (data32 / 2 ^ 16) % 2 = 1 then
    MAX31855K_fault_switch prevErr (data32 % 8)
  else
    MAX_OK

/-! ## PID controller (`reflow_oven_pid/Core/Src/pid.c`) -/

/-- PID controller state and parameters (`PID_t`). -/
structure PID_t where
  Kp : ℚ
  Ki : ℚ
  Kd : ℚ
  tau : ℚ
  Ts : ℚ
  out_lim_max : ℚ
  out_lim_min : ℚ
  integral : ℚ
  prev_error : ℚ
  derivative : ℚ
  prev_measurement : ℚ
  out : ℚ
deriving DecidableEq, Repr

/-- `SAMESIGN(X, Y)`, the macro `((X) <= 0) == ((Y) <= 0)`. -/
def SAMESIGN (x y : ℚ) : Bool := (decide (x ≤ 0)) = (decide (y ≤ 0))

/-- `PID_Reset`: clears the controller memory, keeps the parameters. -/
def PID_Reset (pid : PID_t) : PID_t :=
  { pid with integral := 0, prev_error := 0, derivative := 0,
             prev_measurement := 0, out := 0 }

/-- `PID_Calculate`: one discrete PID step.  Returns the updated
controller state together with the returned output value. -/
def PID_Calculate (pid : PID_t) (setpoint measurement : ℚ) : PID_t × ℚ :=
  let error := setpoint - measurement
  let proportional := pid.Kp * error
  let integral :=
    if (pid.out = pid.out_lim_max ∨ pid.out = pid.out_lim_min) ∧
        SAMESIGN pid.out error = true then
      pid.integral
    else
      pid.integral + (1 / 2) * pid.Ki * pid.Ts * (error + pid.prev_error)
  let derivative :=
    -(2 * pid.Kd * (measurement - pid.prev_measurement)
        + (2 * pid.tau - pid.Ts) * pid.derivative)
      / (2 * pid.tau + pid.Ts)
  let out0 := proportional + integral + derivative
  let out :=
    if out0 > pid.out_lim_max then pid.out_lim_max
    else if out0 < pid.out_lim_min then pid.out_lim_min
    else out0
  ({ pid with integral := integral, derivative := derivative, out := out,
              prev_error := error, prev_measurement := measurement }, out)

/-! ## Time Event multiplexer (`UART-FreeRTOS/Core/Src/active.c`,
concatenated into `log.c` in the source snapshot) -/

/-- A Time Event record: owning active object (by identifier), the signal
it posts, the down-counting `timeout` and the `reload` period. -/
structure TimeEvent where
  ao : Nat
  sig : Nat
  timeout : Nat
  reload : Nat
deriving DecidableEq, Repr

/-- `TimeEvent_arm`: sets both counters. -/
def TimeEvent_arm (t : TimeEvent) (timeout reload : Nat) : TimeEvent :=
  { t with timeout := timeout, reload := reload }

/-- `TimeEvent_disarm`: zeroes the countdown only. -/
def TimeEvent_disarm (t : TimeEvent) : TimeEvent :=
  { t with timeout := 0 }

/-- One visit of `TimeEvent_tick` to a single registered record:
if `timeout > 0` it is decremented, and when it reaches 0 the record's
signal is posted to the owning active object (returned as
`some (owner, signal)`) and `timeout` is reloaded. -/
def TimeEvent_tick_one (t : TimeEvent) : TimeEvent × Option (Nat × Nat) :=
  if t.timeout > 0 then
    let tm := t.timeout - 1
    if tm = 0 then ({ t with timeout := t.reload }, some (t.ao, t.sig))
    else ({ t with timeout := tm }, none)
  else (t, none)

/-- `TimeEvent_tick`: the heartbeat callback visits every registered
record in order; returns the updated registry and the list of
`(owner, signal)` posts made during the tick. -/
def TimeEvent_tick (ts : List TimeEvent) : List TimeEvent × List (Nat × Nat) :=
  match ts with
  | [] => ([], [])
  | t :: rest =>
      let (t', p) := TimeEvent_tick_one t
      let (rest', ps) := TimeEvent_tick rest
      (t' :: rest', (p.toList) ++ ps)

/-- Drive `n` heartbeat ticks over a single registered record, counting
the number of events posted. -/
def TimeEvent_tickN (n : Nat) (t : TimeEvent) : TimeEvent × Nat :=
  match n with
  | 0 => (t, 0)
  | n + 1 =>
      let (t', p) := TimeEvent_tick_one t
      let (t'', c) := TimeEvent_tickN n t'
      (t'', (if p.isSome then 1 else 0) + c)

/-! ## Reflow process state machine (`UART-FreeRTOS/Core/Src/command.c`,
lines 98-571: the concatenated `reflow.c`) -/

/-- Event base class: a record holding a signal (`active.h`). -/
structure Event where
  sig : Nat
deriving DecidableEq, Repr

/-- Signal indices of the reflow variant built in `command.c`.  The
header that defines this enumeration is not part of the source snapshot;
the indices follow the column comment of `Reflow_state_table`
(`INIT_SIG, ENTRY_SIG, START_REFLOW_SIG, REACH_TIME_SIG, REACH_TEMP_SIG,
STOP_REFLOW_SIG`), which the six initializers of each table row realize
in order. -/
def INIT_SIG : Nat := 0

/-- Reserved dispatcher-internal signal: entry action column. -/
def ENTRY_SIG : Nat := 1

/-- Public signal: start the reflow process. -/
def START_REFLOW_SIG : Nat := 2

/-- Public signal: a REACHTIME phase duration elapsed. -/
def REACH_TIME_SIG : Nat := 3

/-- Public signal: the target temperature of a REACHTEMP phase was
reached. -/
def REACH_TEMP_SIG : Nat := 4

/-- Public signal: stop the reflow process. -/
def STOP_REFLOW_SIG : Nat := 5

/-- Number of signals of the reflow variant (table column count). -/
def NUM_REFLOW_SIGS : Nat := 6

/-- State indices (`Reflow_State` enumeration). -/
def RESET_STATE : Nat := 0

/-- Pre-heat phase state index. -/
def PREHEAT_STATE : Nat := 1

/-- Soak phase state index. -/
def SOAK_STATE : Nat := 2

/-- Ramp-up phase state index. -/
def RAMPUP_STATE : Nat := 3

/-- Peak phase state index. -/
def PEAK_STATE : Nat := 4

/-- Cool-down phase state index. -/
def COOLDOWN_STATE : Nat := 5

/-- `NUM_REFLOW_STATES`. -/
def NUM_REFLOW_STATES : Nat := 6

/-- `NUM_PROFILE_PHASES = NUM_REFLOW_STATES - 1`. -/
def NUM_PROFILE_PHASES : Nat := 5

/-- `phase_type` discriminator of a profile phase. -/
inductive PhaseType where
  | REACHTEMP
  | REACHTIME
deriving DecidableEq, Repr

/-- One reflow profile phase (`Reflow_Phase`). -/
structure Reflow_Phase where
  phase_type : PhaseType
  reach_temp : Nat
  reach_time : Nat
deriving DecidableEq, Repr

/-- The statically initialized profile of `reflow_ao.reflow_phases`
(designated initializers; `reach_time` left out of an initializer is
zero-filled by C static initialization). -/
def reflow_phases_init : List Reflow_Phase :=
  [ ⟨PhaseType.REACHTEMP, 125, 0⟩,       -- Pre-heat
    ⟨PhaseType.REACHTIME, 180, 120000⟩,  -- Soak
    ⟨PhaseType.REACHTEMP, 225, 0⟩,       -- Ramp-up
    ⟨PhaseType.REACHTIME, 225, 5000⟩,    -- Peak
    ⟨PhaseType.REACHTEMP, 35, 0⟩ ]       -- Cool-down

/-- Status code returned by a reflow action (`Reflow_Status`). -/
inductive Reflow_Status where
  | TRAN_STATUS
  | HANDLED_STATUS
  | IGNORE_STATUS
  | INIT_STATUS
deriving DecidableEq, Repr

open Reflow_Status PhaseType

/-- Warnings the reflow actions emit through `LOGW`, by call site. -/
inductive WarnMsg where
  | readErrorCannotStart
  | mustCoolBelow (threshold : Nat)
deriving DecidableEq, Repr

/-- The reflow active object (`Reflow_Active`), together with the
hardware and RTOS effects its actions perform: the PWM channel
(`pwm_running`, compare register `pwm_compare`), the periodic PID sample
timer (`pid_timer_running`, period in ms), the REACHTIME time event, the
signals posted to the object's own mailbox (oldest first), warnings and
error logs. -/
structure Reflow_Active where
  state : Nat
  pid_params : PID_t
  step_size : ℚ
  setpoint : ℚ
  reflow_phases : List Reflow_Phase
  pwm_running : Bool
  pwm_compare : Nat
  pid_timer_running : Bool
  pid_timer_period_ms : Nat
  reflow_time_evt : TimeEvent
  posted : List Nat
  warnings : List WarnMsg
  error_logs : Nat
deriving DecidableEq, Repr

/-- A sensor read attempt (`readTemperature`): `some t` when
`MAX31855K_RxBlocking` succeeds and the hot-junction temperature is `t`,
`none` on a read error.  On `none` the caller's `temp_reading` buffer is
left unmodified (it stays at its initializer `0`). -/
def SensorRead := Option ℚ

/-- Names of the sixteen action functions appearing in
`Reflow_state_table` of `command.c`. -/
inductive ReflowAction where
  | reset_INIT
  | reset_ENTRY
  | preheat_ENTRY
  | soak_ENTRY
  | rampup_ENTRY
  | peak_ENTRY
  | cooldown_ENTRY
  | reset_START
  | preheat_REACHTEMP
  | soak_REACHTIME
  | rampup_REACHTEMP
  | peak_REACHTIME
  | cooldown_REACHTEMP
  | STOP
  | ignore
deriving DecidableEq, Repr

/-- Profile phase at list index `i`, zero record when out of range (the
entry actions use only the constant in-range indices `0..4`). -/
def phaseAtIdx (ao : Reflow_Active) (i : Nat) : Reflow_Phase :=
  ao.reflow_phases.getD i ⟨PhaseType.REACHTEMP, 0, 0⟩

/-- Run one reflow action function on the active object.  The C actions
receive an `Event const *` parameter but none of them reads it, so it is
omitted; `sensor` is the outcome of the `readTemperature` call that only
`Reflow_reset_START` performs. -/
def runAction (a : ReflowAction) (sensor : Option ℚ) (ao : Reflow_Active) :
    Reflow_Active × Reflow_Status :=
  match a with
  | .reset_INIT =>
      -- Reflow_reset_INIT: LOGI, then `ao->state = RESET_STATE` (redundant).
      ({ ao with state := RESET_STATE }, INIT_STATUS)
  | .reset_ENTRY =>
      -- Reflow_reset_ENTRY: zero the PWM compare, stop PWM, clear PID
      -- memory, stop the PID sample timer, disarm the time event.
      ({ ao with pwm_compare := 0, pwm_running := false,
                 pid_params := PID_Reset ao.pid_params,
                 pid_timer_running := false,
                 reflow_time_evt := TimeEvent_disarm ao.reflow_time_evt },
       HANDLED_STATUS)
  | .preheat_ENTRY =>
      -- Reflow_preheat_ENTRY: start PWM, setpoint from the Preheat
      -- phase, start the PID timer with period (uint32_t)(Ts*1000) ms.
      ({ ao with pwm_running := true,
                 setpoint := ((phaseAtIdx ao (PREHEAT_STATE - 1)).reach_temp : ℚ),
                 pid_timer_running := true,
                 pid_timer_period_ms := u32_of_q (ao.pid_params.Ts * 1000) },
       HANDLED_STATUS)
  | .soak_ENTRY =>
      -- Reflow_soak_ENTRY: step size
      --   (float)(soak.reach_temp - preheat.reach_temp)
      --     / ( soak.reach_time / 1000 * (1 / Ts) )
      -- with uint32 subtraction and integer division by 1000,
      -- then arm the one-shot time event for the soak duration.
      ({ ao with
          step_size :=
            ((u32_sub (phaseAtIdx ao (SOAK_STATE - 1)).reach_temp
                      (phaseAtIdx ao (PREHEAT_STATE - 1)).reach_temp : Nat) : ℚ) /
              ((((phaseAtIdx ao (SOAK_STATE - 1)).reach_time / 1000 : Nat) : ℚ)
                * (1 / ao.pid_params.Ts)),
          reflow_time_evt :=
            TimeEvent_arm ao.reflow_time_evt
              (phaseAtIdx ao (SOAK_STATE - 1)).reach_time 0 },
       HANDLED_STATUS)
  | .rampup_ENTRY =>
      ({ ao with setpoint := ((phaseAtIdx ao (RAMPUP_STATE - 1)).reach_temp : ℚ) },
       HANDLED_STATUS)
  | .peak_ENTRY =>
      -- Reflow_peak_ENTRY: zero the ramp step, arm the one-shot timer.
      ({ ao with step_size := 0,
                 reflow_time_evt :=
                   TimeEvent_arm ao.reflow_time_evt
                     (phaseAtIdx ao (PEAK_STATE - 1)).reach_time 0 },
       HANDLED_STATUS)
  | .cooldown_ENTRY =>
      ({ ao with setpoint := ((phaseAtIdx ao (COOLDOWN_STATE - 1)).reach_temp : ℚ) },
       HANDLED_STATUS)
  | .reset_START =>
      -- Reflow_reset_START: read the sensor; on failure LOGW and handle;
      -- if (uint32_t)current_temp exceeds the Cooldown target, LOGW with
      -- the threshold and handle; otherwise transition to Preheat.
      match sensor with
      | none =>
          ({ ao with warnings := ao.warnings ++ [WarnMsg.readErrorCannotStart] },
           HANDLED_STATUS)
      | some t =>
          if u32_of_q t > (phaseAtIdx ao (COOLDOWN_STATE - 1)).reach_temp then
            ({ ao with warnings := ao.warnings ++
                 [WarnMsg.mustCoolBelow (phaseAtIdx ao (COOLDOWN_STATE - 1)).reach_temp] },
             HANDLED_STATUS)
          else
            ({ ao with state := PREHEAT_STATE }, TRAN_STATUS)
  | .preheat_REACHTEMP => ({ ao with state := SOAK_STATE }, TRAN_STATUS)
  | .soak_REACHTIME => ({ ao with state := RAMPUP_STATE }, TRAN_STATUS)
  | .rampup_REACHTEMP => ({ ao with state := PEAK_STATE }, TRAN_STATUS)
  | .peak_REACHTIME => ({ ao with state := COOLDOWN_STATE }, TRAN_STATUS)
  | .cooldown_REACHTEMP => ({ ao with state := RESET_STATE }, TRAN_STATUS)
  | .STOP =>
      -- Reflow_STOP: stop the PID sample timer, transition to RESET.
      ({ ao with pid_timer_running := false, state := RESET_STATE }, TRAN_STATUS)
  | .ignore => (ao, IGNORE_STATUS)

/-- `Reflow_state_table` of `command.c`: six rows (states) of six cells
(signals), in the initializer order of the source. -/
def Reflow_state_table : List (List ReflowAction) :=
  [ /- RESET    -/ [.reset_INIT, .reset_ENTRY, .reset_START, .ignore, .ignore, .ignore],
    /- PREHEAT  -/ [.ignore, .preheat_ENTRY, .ignore, .ignore, .preheat_REACHTEMP, .STOP],
    /- SOAK     -/ [.ignore, .soak_ENTRY, .ignore, .soak_REACHTIME, .ignore, .STOP],
    /- RAMPUP   -/ [.ignore, .rampup_ENTRY, .ignore, .ignore, .rampup_REACHTEMP, .STOP],
    /- PEAK     -/ [.ignore, .peak_ENTRY, .ignore, .peak_REACHTIME, .ignore, .STOP],
    /- COOLDOWN -/ [.ignore, .cooldown_ENTRY, .ignore, .ignore, .cooldown_REACHTEMP, .STOP] ]

/-- Table cell lookup `Reflow_state_table[s][g]`; `none` models an
out-of-bounds access. -/
def tableCell (s g : Nat) : Option ReflowAction :=
  match Reflow_state_table.get? s with
  | none => none
  | some row => row.get? g

/-- `reflow_evt_handler` of `command.c`: dispatch `evt` through the state
table; on `TRAN_STATUS` or `INIT_STATUS` additionally execute the entry
action of the (possibly new) current state.  Returns `none` when the
bounds assertion fails or a table access is out of range, otherwise the
updated object paired with the trace of table cells invoked, each as a
`(state, signal)` index pair in call order. -/
def reflow_evt_handler (sensor : Option ℚ) (ao : Reflow_Active) (evt : Event) :
    Option (Reflow_Active × List (Nat × Nat)) :=
  if ao.state < NUM_REFLOW_STATES ∧ evt.sig < NUM_REFLOW_SIGS then
    match tableCell ao.state evt.sig with
    | none => none
    | some act =>
        let s0 := ao.state
        let (ao1, stat) := runAction act sensor ao
        if stat = TRAN_STATUS ∨ stat = INIT_STATUS then
          match tableCell ao1.state ENTRY_SIG with
          | none => none
          | some entryAct =>
              some ((runAction entryAct sensor ao1).1,
                    [(s0, evt.sig), (ao1.state, ENTRY_SIG)])
        else
          some (ao1, [(s0, evt.sig)])
  else
    none

/-- `stop_evt` of `command.c` line 228: the event the `reflow stop`
command (and the failing PID tick) posts.  The source initializes it as
`{ .sig = REACH_TEMP_SIG }` under the comment
"Stop reflow process event signal". -/
def stop_evt : Event := ⟨REACH_TEMP_SIG⟩

/-- `reflow_stop_cmd`: posts `stop_evt` to the reflow active object's
mailbox and returns 0. -/
def reflow_stop_cmd (ao : Reflow_Active) : Reflow_Active × Nat :=
  ({ ao with posted := ao.posted ++ [stop_evt.sig] }, 0)

/-- `reflow_start_cmd`: posts the locally defined
`start_evt = { .sig = START_REFLOW_SIG }` and returns 0. -/
def reflow_start_cmd (ao : Reflow_Active) : Reflow_Active × Nat :=
  ({ ao with posted := ao.posted ++ [START_REFLOW_SIG] }, 0)

/-- Profile phase index used by `reflow_pid_iteration`:
`reflow_ao.reflow_phases[reflow_ao.state - 1]` with `int` index
arithmetic; a negative or out-of-range index is undefined behavior,
modelled as `none`. -/
def pidPhase (ao : Reflow_Active) : Option Reflow_Phase :=
  if ao.state = 0 then none
  else ao.reflow_phases.get? (ao.state - 1)

/-- `reflow_pid_iteration` of `command.c`: the periodic PID sample tick.
`temp_reading` starts at 0; a failed `readTemperature` logs an error and
posts `stop_evt`, and then — the source has no early return — execution
falls through to the phase check, the setpoint/band logic, the PID
computation and the PWM compare write, all with `temp_reading` still 0. -/
def reflow_pid_iteration (sensor : Option ℚ) (ao : Reflow_Active) :
    Option Reflow_Active :=
  let temp_reading : ℚ := match sensor with | none => 0 | some t => t
  let ao1 : Reflow_Active :=
    match sensor with
    | none => { ao with error_logs := ao.error_logs + 1,
                        posted := ao.posted ++ [stop_evt.sig] }
    | some _ => ao
  match pidPhase ao1 with
  | none => none
  | some ph =>
      let ao2 : Reflow_Active :=
        if ph.phase_type = REACHTEMP then
          -- `if (reach_temp > (uint32_t)temp_reading - 1U &&
          --      reach_temp < (uint32_t)temp_reading + 1U)`
          if ph.reach_temp > u32_sub (u32_of_q temp_reading) 1 ∧
              ph.reach_temp < u32_add (u32_of_q temp_reading) 1 then
            { ao1 with posted := ao1.posted ++ [REACH_TEMP_SIG] }
          else ao1
        else
          -- REACHTIME phase: advance the setpoint by one ramp step.
          { ao1 with setpoint := ao1.setpoint + ao1.step_size }
      let (pid', pwm_value) := PID_Calculate ao2.pid_params ao2.setpoint temp_reading
      some { ao2 with pid_params := pid',
                      pwm_compare := u16_of_q pwm_value }

/-! ## Concrete instances used by witnesses and counterexamples -/

/-- PID parameters after `reflow_init` (`KP_INIT = 10, KI_INIT = 0,
KD_INIT = 0, TAU_INIT = 1, TS_INIT = 0.5, OUT_MAX_INIT = 4095,
OUT_MIN_INIT = 0`), controller memory cleared by `PID_Init`. -/
def reflow_pid_params_init : PID_t :=
  ⟨10, 0, 0, 1, 1 / 2, 4095, 0, 0, 0, 0, 0, 0⟩

/-- The reflow time event after `TimeEvent_ctor(REACH_TIME_SIG)`:
owner is the reflow active object (identifier 0), counters zero. -/
def reflow_time_evt_init : TimeEvent := ⟨0, REACH_TIME_SIG, 0, 0⟩

/-- The reflow active object after `reflow_init`: RESET state, the
static profile, all effects idle. -/
def reflow_ao_init : Reflow_Active :=
  ⟨RESET_STATE, reflow_pid_params_init, 0, 0, reflow_phases_init,
   false, 0, false, 0, reflow_time_evt_init, [], [], 0⟩

/-- A representative context in the Preheat state (after the Preheat
entry action: PWM on, setpoint 125, PID timer running). -/
def reflow_ao_preheat : Reflow_Active :=
  { reflow_ao_init with state := PREHEAT_STATE, pwm_running := true,
                        setpoint := 125, pid_timer_running := true,
                        pid_timer_period_ms := 500 }

/-- A representative context in the Soak state (after the Soak entry
action: ramp step `55/240` per sample, setpoint partway up the ramp). -/
def reflow_ao_soak : Reflow_Active :=
  { reflow_ao_preheat with state := SOAK_STATE, setpoint := 130,
                           step_size := 55 / 240 }

/-! ## Helper lemmas shared by the claim theorems -/

/-- Every action either leaves the state field unchanged or writes one
of the named state enumerators, so it stays below `NUM_REFLOW_STATES`. -/
theorem runAction_state_lt (a : ReflowAction) (sensor : Option ℚ)
    (ao : Reflow_Active) (h : ao.state < NUM_REFLOW_STATES) :
    (runAction a sensor ao).1.state < NUM_REFLOW_STATES := by
  cases a <;> cases sensor <;>
    simp only [runAction, NUM_REFLOW_STATES, RESET_STATE, PREHEAT_STATE,
      SOAK_STATE, RAMPUP_STATE, PEAK_STATE, COOLDOWN_STATE] at h ⊢ <;>
    first
      | omega
      | (split <;> simp <;> omega)

/-- The `command.c` transition table has a defined cell at every
in-range `(state, signal)` index pair. -/
theorem tableCell_isSome :
    ∀ s < NUM_REFLOW_STATES, ∀ g < NUM_REFLOW_SIGS, (tableCell s g).isSome := by
  decide

/-- Under the dispatcher's bounds assertion, `reflow_evt_handler`
succeeds and produces a state that again indexes a valid table row. -/
theorem reflow_evt_handler_total (sensor : Option ℚ) (ao : Reflow_Active)
    (evt : Event) (hs : ao.state < NUM_REFLOW_STATES)
    (hg : evt.sig < NUM_REFLOW_SIGS) :
    ∃ r, reflow_evt_handler sensor ao evt = some r ∧
      r.1.state < NUM_REFLOW_STATES := by
  obtain ⟨act, hact⟩ :=
    Option.isSome_iff_exists.mp (tableCell_isSome ao.state hs evt.sig hg)
  rcases hr : runAction act sensor ao with ⟨ao1, stat⟩
  have h1 : ao1.state < NUM_REFLOW_STATES := by
    have := runAction_state_lt act sensor ao hs
    rwa [hr] at this
  obtain ⟨eact, heact⟩ :=
    Option.isSome_iff_exists.mp
      (tableCell_isSome ao1.state h1 ENTRY_SIG (by decide))
  have h2 : (runAction eact sensor ao1).1.state < NUM_REFLOW_STATES :=
    runAction_state_lt eact sensor ao1 h1
  unfold reflow_evt_handler
  rw [if_pos ⟨hs, hg⟩]
  simp only [hact, hr]
  by_cases hst : stat = TRAN_STATUS ∨ stat = INIT_STATUS
  · rw [if_pos hst]
    simp only [heact]
    exact ⟨_, rfl, h2⟩
  · rw [if_neg hst]
    exact ⟨_, rfl, h1⟩

/-! ## The earlier reflow variant (`src/unnamed/part_001`) -/

/-- Action functions referenced by the `part_001` variant's
`Reflow_state_table` (that variant has no entry/exit action functions). -/
inductive ReflowActionV1 where
  | reflow_INIT
  | reset_START
  | preheat_REACHTEMP
  | soak_REACHTIME
  | rampup_REACHTEMP
  | peak_REACHTIME
  | cooldown_REACHTEMP
  | STOP
  | ignore
deriving DecidableEq, Repr

/-- Modelled from the spec: the signal enumeration of the `part_001`
reflow variant.  Its `reflow.h` is not part of the source snapshot; the
spec describes the richer variant's reserved signals as `INIT` plus
`ENTRY`/`EXIT`, followed by the public signals, which matches the column
comment of the `part_001` table
(`INIT_SIG, ENTRY_SIG, EXIT_SIG, START_REFLOW_SIG, REACH_TIME_SIG,
REACH_TEMP_SIG, STOP_REFLOW_SIG`) and the handler's use of `ENTRY_SIG`
and `EXIT_SIG`: seven columns in that order. -/
def NUM_REFLOW_SIGS_V1 : Nat := 7

/-- The `part_001` `Reflow_state_table`: declared
`[NUM_REFLOW_STATES][NUM_REFLOW_SIGS]` but each row supplies only five
initializers, so C static initialization zero-fills the remaining cells
with `NULL` (modelled as `none`). -/
def Reflow_state_table_v1 : List (List (Option ReflowActionV1)) :=
  [ /- RESET    -/ [some .reflow_INIT, some .reset_START, some .ignore,
                    some .ignore, some .ignore, none, none],
    /- PREHEAT  -/ [some .ignore, some .ignore, some .ignore,
                    some .preheat_REACHTEMP, some .STOP, none, none],
    /- SOAK     -/ [some .ignore, some .ignore, some .soak_REACHTIME,
                    some .ignore, some .STOP, none, none],
    /- RAMPUP   -/ [some .ignore, some .ignore, some .ignore,
                    some .rampup_REACHTEMP, some .STOP, none, none],
    /- PEAK     -/ [some .ignore, some .ignore, some .peak_REACHTIME,
                    some .ignore, some .STOP, none, none],
    /- COOLDOWN -/ [some .ignore, some .ignore, some .ignore,
                    some .cooldown_REACHTEMP, some .STOP, none, none] ]

/-- Cell lookup in the `part_001` table: `some none` is a cell that
exists in the declared array but holds a `NULL` function pointer. -/
def tableCellV1 (s g : Nat) : Option (Option ReflowActionV1) :=
  match Reflow_state_table_v1.get? s with
  | none => none
  | some row => row.get? g

/-! ## Claim theorems -/

/-- C8: if the previous output sits at the configured maximum limit and
the current error has the same sign as that output, `PID_Calculate`
leaves the `integral` field unchanged (anti-windup clamp). -/
theorem c8_antiwindup_integral_frozen (pid : PID_t) (setpoint measurement : ℚ)
    (hmax : pid.out = pid.out_lim_max)
    (hsign : SAMESIGN pid.out (setpoint - measurement) = true) :
    (PID_Calculate pid setpoint measurement).1.integral = pid.integral := by
  have hcond : (pid.out = pid.out_lim_max ∨ pid.out = pid.out_lim_min) ∧
      SAMESIGN pid.out (setpoint - measurement) = true := ⟨Or.inl hmax, hsign⟩
  simp only [PID_Calculate]
  rw [if_pos hcond]

/-- Witness for C8 at a concrete saturated controller state: output
pinned at `out_max = 4095`, positive error of the same sign. -/
theorem c8_antiwindup_integral_frozen_witness :
    (⟨10, 1, 0, 1, 1 / 2, 4095, 0, 7, 0, 0, 0, 4095⟩ : PID_t).out =
        (⟨10, 1, 0, 1, 1 / 2, 4095, 0, 7, 0, 0, 0, 4095⟩ : PID_t).out_lim_max ∧
      SAMESIGN (⟨10, 1, 0, 1, 1 / 2, 4095, 0, 7, 0, 0, 0, 4095⟩ : PID_t).out
          ((100 : ℚ) - 50) = true ∧
      (PID_Calculate ⟨10, 1, 0, 1, 1 / 2, 4095, 0, 7, 0, 0, 0, 4095⟩ 100 50).1.integral =
        (⟨10, 1, 0, 1, 1 / 2, 4095, 0, 7, 0, 0, 0, 4095⟩ : PID_t).integral :=
  ⟨rfl, by norm_num [SAMESIGN],
   c8_antiwindup_integral_frozen ⟨10, 1, 0, 1, 1 / 2, 4095, 0, 7, 0, 0, 0, 4095⟩
     100 50 rfl (by norm_num [SAMESIGN])⟩

/-- C9 counterexample: the claim says a raw reading with the
shorted-to-VCC bit set decodes to `MAX_SHORT_VCC` (first-match-wins).
On the raw word `0x10004` (fault flag bit 16 plus the SCV bit) the
decoder actually returns `MAX_OPEN` — the `switch` has no `break`s, so
the last assignment wins — and likewise the SCG-only word `0x10002`
does not decode to `MAX_SHORT_GND`. -/
theorem c9_first_match_counterexample :
    MAX31855K_error_check MAX_OK 65540 = MAX_OPEN ∧
      MAX31855K_error_check MAX_OK 65540 ≠ MAX_SHORT_VCC ∧
      MAX31855K_error_check MAX_OK 65538 = MAX_OPEN ∧
      MAX31855K_error_check MAX_OK 65538 ≠ MAX_SHORT_GND := by
  decide

/-- C9 amended: with the fault flag (bit 16) set on a nonzero word, the
fall-through `switch` makes the LAST matching assignment win: a fault
field of exactly SCV (`0x4`), exactly SCG (`0x2`) or exactly OC (`0x1`)
each produce `MAX_OPEN`, and any other fault-bit combination leaves the
stored error value unchanged. -/
theorem c9_fall_through_last_assignment_wins (prevErr : MAX_err) (data32 : Nat)
    (hnz : data32 % 2 ^ 32 ≠ 0) (hflag : (data32 / 2 ^ 16) % 2 = 1) :
    MAX31855K_error_check prevErr data32 =
      if data32 % 8 = 4 ∨ data32 % 8 = 2 ∨ data32 % 8 = 1 then MAX_OPEN
      else prevErr := by
  simp only [MAX31855K_error_check, MAX31855K_fault_switch, if_neg hnz, hflag,
    if_pos rfl]
  set f := data32 % 8 with hf
  have h8 : f < 8 := Nat.mod_lt _ (by norm_num)
  interval_cases f <;> simp

/-- Witness for C9's amended theorem at the SCV-only word `0x10004`. -/
theorem c9_fall_through_last_assignment_wins_witness :
    (65540 : Nat) % 2 ^ 32 ≠ 0 ∧ ((65540 : Nat) / 2 ^ 16) % 2 = 1 ∧
      MAX31855K_error_check MAX_SHORT_GND 65540 =
        (if (65540 : Nat) % 8 = 4 ∨ (65540 : Nat) % 8 = 2 ∨ (65540 : Nat) % 8 = 1
         then MAX_OPEN else MAX_SHORT_GND) :=
  ⟨by decide, by decide,
   c9_fall_through_last_assignment_wins MAX_SHORT_GND 65540 (by decide) (by decide)⟩

/-- C1: the claim says the `reflow stop` command posts an event with
signal `STOP_REFLOW_SIG` so that dispatching it in a non-Reset state
runs the STOP action.  In the source, `stop_evt` is initialized with
`.sig = REACH_TEMP_SIG` (under the comment "Stop reflow process event
signal"), so the posted event carries `REACH_TEMP_SIG`, a different
signal than `STOP_REFLOW_SIG`; dispatching it in the Preheat state runs
`Reflow_preheat_REACHTEMP` — transitioning to Soak with the PID timer
still running — instead of `Reflow_STOP` (which sits in the separate
`STOP_REFLOW_SIG` column). -/
theorem c1_stop_cmd_posts_reach_temp_sig :
    stop_evt.sig = REACH_TEMP_SIG ∧
      REACH_TEMP_SIG ≠ STOP_REFLOW_SIG ∧
      (reflow_stop_cmd reflow_ao_init).1.posted = [REACH_TEMP_SIG] ∧
      tableCell PREHEAT_STATE STOP_REFLOW_SIG = some ReflowAction.STOP ∧
      (reflow_evt_handler none reflow_ao_preheat stop_evt).map
          (fun r => (r.1.state, r.1.pid_timer_running, r.2)) =
        some (SOAK_STATE, true, [(PREHEAT_STATE, REACH_TEMP_SIG), (SOAK_STATE, ENTRY_SIG)]) := by
  decide

/-- C2: the claim says a failed sensor read during the PID tick posts a
STOP-equivalent and returns immediately with no phase lookup, setpoint
update, PID computation or actuator write.  The source's
`reflow_pid_iteration` has no early return: called in the Soak state
with a failing sensor it posts the stop event (itself carrying
`REACH_TEMP_SIG`), but then still advances the setpoint by the ramp step
(`130 + 55/240`), runs `PID_Calculate` against the zero-initialized
`temp_reading` (output `31255/24`) and writes the truncated output
`1302` to the PWM compare register. -/
theorem c2_pid_tick_continues_after_failed_read :
    (reflow_pid_iteration none reflow_ao_soak).map
        (fun c => (c.posted, c.error_logs, c.state, c.pwm_compare)) =
      some ([REACH_TEMP_SIG], 1, SOAK_STATE, 1302) ∧
      (reflow_pid_iteration none reflow_ao_soak).map (fun c => c.setpoint) =
        some (130 + 55 / 240) ∧
      (reflow_pid_iteration none reflow_ao_soak).map (fun c => c.pid_params.out) =
        some (31255 / 24) := by
  simp [reflow_pid_iteration, pidPhase, reflow_ao_soak, reflow_ao_preheat,
    reflow_ao_init, reflow_phases_init, reflow_pid_params_init, reflow_time_evt_init,
    PID_Calculate, SAMESIGN, u16_of_q, u32_of_q, u32_sub, u32_add, stop_evt,
    phaseAtIdx, RESET_STATE, PREHEAT_STATE, SOAK_STATE, REACH_TEMP_SIG,
    REACH_TIME_SIG, COOLDOWN_STATE]
  norm_num
  decide

/-- C5: the claim says the reflow transition table is total with no
missing or null cell.  The `command.c` table is total: every cell of the
`NUM_REFLOW_STATES × NUM_REFLOW_SIGS` grid holds a defined action.  The
earlier `part_001` variant's table is not: its rows supply only five
initializers for the seven declared signal columns, so C zero-fills the
`REACH_TEMP_SIG` and `STOP_REFLOW_SIG` columns with `NULL`
(`some none` below: the cell exists in the declared array but holds a
null function pointer). -/
theorem c5_table_totality_and_null_cells :
    ((List.range NUM_REFLOW_STATES).all fun s =>
        (List.range NUM_REFLOW_SIGS).all fun g => (tableCell s g).isSome) = true ∧
      tableCellV1 RESET_STATE (NUM_REFLOW_SIGS_V1 - 2) = some none ∧
      tableCellV1 PREHEAT_STATE (NUM_REFLOW_SIGS_V1 - 1) = some none := by
  decide

/-- A record whose countdown is zero is never modified and never fires,
for any number of ticks. -/
theorem TimeEvent_tickN_zero (n a s r : Nat) :
    TimeEvent_tickN n ⟨a, s, 0, r⟩ = (⟨a, s, 0, r⟩, 0) := by
  induction n with
  | zero => rfl
  | succ n ih => simp [TimeEvent_tickN, TimeEvent_tick_one, ih]

/-- Fewer ticks than the countdown: the countdown just decreases, no
event fires. -/
theorem TimeEvent_tickN_lt (n : Nat) : ∀ T, n < T → ∀ a s r : Nat,
    TimeEvent_tickN n ⟨a, s, T, r⟩ = (⟨a, s, T - n, r⟩, 0) := by
  induction n with
  | zero => intro T h a s r; simp [TimeEvent_tickN]
  | succ n ih =>
      intro T h a s r
      have hT : 0 < T := by omega
      have htm : ¬ (T - 1 = 0) := by omega
      simp only [TimeEvent_tickN, TimeEvent_tick_one, gt_iff_lt, hT, if_true, htm,
        if_false]
      rw [ih (T - 1) (by omega) a s r]
      have hsub : T - 1 - n = T - (n + 1) := by omega
      simp [hsub]

/-- Running at least `T` ticks over a record armed with countdown
`T > 0`: the event fires exactly once after `T` ticks, the countdown is
reloaded, and the remaining `n - T` ticks continue from there. -/
theorem TimeEvent_tickN_fire (n : Nat) : ∀ T, 0 < T → T ≤ n → ∀ a s r : Nat,
    TimeEvent_tickN n ⟨a, s, T, r⟩ =
      ((TimeEvent_tickN (n - T) ⟨a, s, r, r⟩).1,
       1 + (TimeEvent_tickN (n - T) ⟨a, s, r, r⟩).2) := by
  induction n with
  | zero => intro T h1 h2; omega
  | succ n ih =>
      intro T h1 h2 a s r
      by_cases hT1 : T = 1
      · subst hT1
        simp [TimeEvent_tickN, TimeEvent_tick_one]
      · have h2' : T - 1 ≤ n := by omega
        have htm : ¬ (T - 1 = 0) := by omega
        simp only [TimeEvent_tickN, TimeEvent_tick_one, gt_iff_lt, h1, if_true, htm,
          if_false]
        rw [ih (T - 1) (by omega) h2' a s r]
        have hsub : n - (T - 1) = n + 1 - T := by omega
        simp [hsub]

/-- C3: each heartbeat tick visits every registered Time Event
record in order, decrementing a positive countdown, firing (posting the
record's signal to its owner) when the countdown reaches zero and then
reloading it; a zero countdown is untouched.  Consequently arming with
`timeout = 5000, reload = 0` posts nothing in the first 4999 ticks,
exactly one event by tick 5000 and still exactly one after 5001 ticks;
arming with `timeout = 1000, reload = 1000` posts exactly 3 events over
3500 ticks. -/
theorem c3_time_event_tick_semantics :
    (∀ ts : List TimeEvent,
        TimeEvent_tick ts =
          (ts.map (fun t => (TimeEvent_tick_one t).1),
           ts.filterMap (fun t => (TimeEvent_tick_one t).2))) ∧
      (∀ t : TimeEvent, 0 < t.timeout → t.timeout ≠ 1 →
        TimeEvent_tick_one t = ({ t with timeout := t.timeout - 1 }, none)) ∧
      (∀ t : TimeEvent, t.timeout = 1 →
        TimeEvent_tick_one t = ({ t with timeout := t.reload }, some (t.ao, t.sig))) ∧
      (∀ t : TimeEvent, t.timeout = 0 → TimeEvent_tick_one t = (t, none)) ∧
      (TimeEvent_tickN 4999 (TimeEvent_arm reflow_time_evt_init 5000 0)).2 = 0 ∧
      (TimeEvent_tickN 5000 (TimeEvent_arm reflow_time_evt_init 5000 0)).2 = 1 ∧
      (TimeEvent_tickN 5001 (TimeEvent_arm reflow_time_evt_init 5000 0)).2 = 1 ∧
      (TimeEvent_tickN 3500 (TimeEvent_arm reflow_time_evt_init 1000 1000)).2 = 3 := by
  refine ⟨?_, ?_, ?_, ?_, ?_, ?_, ?_, ?_⟩
  · intro ts
    induction ts with
    | nil => rfl
    | cons t rest ih =>
        cases h : (TimeEvent_tick_one t).2 <;> simp [TimeEvent_tick, ih, h]
  · intro t h1 h2
    unfold TimeEvent_tick_one
    rw [if_pos h1, if_neg (by omega)]
  · intro t h1
    unfold TimeEvent_tick_one
    rw [if_pos (by omega), if_pos (by omega)]
  · intro t h1
    unfold TimeEvent_tick_one
    rw [if_neg (by omega)]
  · rw [show TimeEvent_arm reflow_time_evt_init 5000 0 = (⟨0, 3, 5000, 0⟩ : TimeEvent)
        from rfl,
      TimeEvent_tickN_lt 4999 5000 (by norm_num) 0 3 0]
  · rw [show TimeEvent_arm reflow_time_evt_init 5000 0 = (⟨0, 3, 5000, 0⟩ : TimeEvent)
        from rfl,
      TimeEvent_tickN_fire 5000 5000 (by norm_num) (by norm_num) 0 3 0]
    norm_num [TimeEvent_tickN]
  · rw [show TimeEvent_arm reflow_time_evt_init 5000 0 = (⟨0, 3, 5000, 0⟩ : TimeEvent)
        from rfl,
      TimeEvent_tickN_fire 5001 5000 (by norm_num) (by norm_num) 0 3 0,
      show (5001 - 5000 : Nat) = 1 from by norm_num,
      TimeEvent_tickN_zero 1 0 3 0]
    norm_num
  · rw [show TimeEvent_arm reflow_time_evt_init 1000 1000 = (⟨0, 3, 1000, 1000⟩ : TimeEvent)
        from rfl,
      TimeEvent_tickN_fire 3500 1000 (by norm_num) (by norm_num) 0 3 1000,
      show (3500 - 1000 : Nat) = 2500 from by norm_num,
      TimeEvent_tickN_fire 2500 1000 (by norm_num) (by norm_num) 0 3 1000,
      show (2500 - 1000 : Nat) = 1500 from by norm_num,
      TimeEvent_tickN_fire 1500 1000 (by norm_num) (by norm_num) 0 3 1000,
      show (1500 - 1000 : Nat) = 500 from by norm_num,
      TimeEvent_tickN_lt 500 1000 (by norm_num) 0 3 1000]
    norm_num

/-- Witness for C3's hypothesis-bearing conjuncts at a concrete record:
countdown 42 decrements to 41 without firing, countdown 1 fires and
reloads to 17. -/
theorem c3_time_event_tick_semantics_witness :
    (0 < (42 : Nat) ∧ (42 : Nat) ≠ 1 ∧
      TimeEvent_tick_one ⟨5, 9, 42, 17⟩ = (⟨5, 9, 41, 17⟩, none)) ∧
      ((1 : Nat) = 1 ∧
        TimeEvent_tick_one ⟨5, 9, 1, 17⟩ = (⟨5, 9, 17, 17⟩, some (5, 9))) :=
  ⟨⟨by norm_num, by norm_num,
    c3_time_event_tick_semantics.2.1 ⟨5, 9, 42, 17⟩ (by norm_num) (by norm_num)⟩,
   ⟨rfl, c3_time_event_tick_semantics.2.2.1 ⟨5, 9, 1, 17⟩ rfl⟩⟩

/-- C6: dispatching START in Reset.  A failed sensor read yields
`HANDLED_STATUS` with no transition and a logged warning; a reading
whose truncated value exceeds the configured Cooldown target yields
`HANDLED_STATUS` with no transition and a warning naming that
threshold; otherwise the handler sets the state to Preheat and returns
the transition status. -/
theorem c6_reset_start_policy (ao : Reflow_Active) :
    (runAction .reset_START none ao =
        ({ ao with warnings := ao.warnings ++ [WarnMsg.readErrorCannotStart] },
         HANDLED_STATUS)) ∧
      (∀ t : ℚ, u32_of_q t > (phaseAtIdx ao (COOLDOWN_STATE - 1)).reach_temp →
        runAction .reset_START (some t) ao =
          ({ ao with warnings := ao.warnings ++
               [WarnMsg.mustCoolBelow (phaseAtIdx ao (COOLDOWN_STATE - 1)).reach_temp] },
           HANDLED_STATUS)) ∧
      (∀ t : ℚ, ¬ u32_of_q t > (phaseAtIdx ao (COOLDOWN_STATE - 1)).reach_temp →
        runAction .reset_START (some t) ao =
          ({ ao with state := PREHEAT_STATE }, TRAN_STATUS)) := by
  refine ⟨rfl, ?_, ?_⟩
  · intro t ht
    simp only [runAction]
    rw [if_pos ht]
  · intro t ht
    simp only [runAction]
    rw [if_neg ht]

/-- Witness for C6 at the spec's concrete examples: reading 40 against
the Cooldown target 35 is refused with the threshold in the warning;
reading 30 transitions to Preheat. -/
theorem c6_reset_start_policy_witness :
    (u32_of_q 40 > (phaseAtIdx reflow_ao_init (COOLDOWN_STATE - 1)).reach_temp ∧
      runAction .reset_START (some 40) reflow_ao_init =
        ({ reflow_ao_init with warnings := reflow_ao_init.warnings ++
             [WarnMsg.mustCoolBelow (phaseAtIdx reflow_ao_init (COOLDOWN_STATE - 1)).reach_temp] },
         HANDLED_STATUS)) ∧
      (¬ u32_of_q 30 > (phaseAtIdx reflow_ao_init (COOLDOWN_STATE - 1)).reach_temp ∧
        runAction .reset_START (some 30) reflow_ao_init =
          ({ reflow_ao_init with state := PREHEAT_STATE }, TRAN_STATUS)) :=
  ⟨⟨by norm_num [u32_of_q, phaseAtIdx, reflow_ao_init, reflow_phases_init,
      COOLDOWN_STATE]; decide,
    (c6_reset_start_policy reflow_ao_init).2.1 40
      (by norm_num [u32_of_q, phaseAtIdx, reflow_ao_init, reflow_phases_init,
        COOLDOWN_STATE]; decide)⟩,
   ⟨by norm_num [u32_of_q, phaseAtIdx, reflow_ao_init, reflow_phases_init,
      COOLDOWN_STATE]; decide,
    (c6_reset_start_policy reflow_ao_init).2.2 30
      (by norm_num [u32_of_q, phaseAtIdx, reflow_ao_init, reflow_phases_init,
        COOLDOWN_STATE]; decide)⟩⟩

/-- C7 counterexample: the claim says a REACH_TEMP event is posted if
and only if the reading lies within the symmetric band
`|reading - target| ≤ 1`.  In the Preheat state (target 125) a reading
of 124 lies within that band, yet the tick posts nothing: the source
condition `reach_temp > (uint32_t)reading - 1 && reach_temp <
(uint32_t)reading + 1` uses strict bounds around the truncated reading,
which only the single value `trunc(reading) = target` satisfies. -/
theorem c7_band_counterexample :
    ((phaseAtIdx reflow_ao_preheat (PREHEAT_STATE - 1)).phase_type = REACHTEMP ∧
      |(124 : ℚ) - ((phaseAtIdx reflow_ao_preheat (PREHEAT_STATE - 1)).reach_temp : ℚ)| ≤ 1) ∧
      (reflow_pid_iteration (some 124) reflow_ao_preheat).map (fun c => c.posted) =
        some [] := by
  refine ⟨⟨rfl, ?_⟩, ?_⟩
  · norm_num [phaseAtIdx, reflow_ao_preheat, reflow_ao_init, reflow_phases_init,
      PREHEAT_STATE]
  · norm_num [reflow_pid_iteration, pidPhase, reflow_ao_preheat, reflow_ao_init,
      reflow_phases_init, reflow_pid_params_init, reflow_time_evt_init, PID_Calculate,
      SAMESIGN, u16_of_q, u32_of_q, u32_sub, u32_add, phaseAtIdx, PREHEAT_STATE,
      RESET_STATE, REACH_TEMP_SIG]
    rw [if_neg (by decide)]

/-- C7 amended: on a tick in a `REACHTEMP` phase with a successful
read whose truncated value is at least 1 (and below the `uint32`
wrap-around bound), a REACH_TEMP event is posted if and only if the
truncated reading equals the phase target — that is, the reading lies
in `[target, target + 1)`, not in a symmetric ±1 band. -/
theorem c7_reach_temp_post_iff_truncated_equality (ao : Reflow_Active) (t : ℚ)
    (ph : Reflow_Phase) (hph : pidPhase ao = some ph)
    (hty : ph.phase_type = REACHTEMP) (hr1 : 1 ≤ u32_of_q t)
    (hr2 : u32_of_q t < 2 ^ 32 - 1) :
    (reflow_pid_iteration (some t) ao).map (fun c => c.posted) =
      some (ao.posted ++
        if ph.reach_temp = u32_of_q t then [REACH_TEMP_SIG] else []) := by
  have hrlt : u32_of_q t < 2 ^ 32 := by
    unfold u32_of_q
    exact Nat.mod_lt _ (by norm_num)
  have hsub : u32_sub (u32_of_q t) 1 = u32_of_q t - 1 := by
    unfold u32_sub
    omega
  have hadd : u32_add (u32_of_q t) 1 = u32_of_q t + 1 := by
    unfold u32_add
    omega
  have hiff : (ph.reach_temp > u32_sub (u32_of_q t) 1 ∧
      ph.reach_temp < u32_add (u32_of_q t) 1) ↔ ph.reach_temp = u32_of_q t := by
    rw [hsub, hadd]
    omega
  simp only [reflow_pid_iteration, hph, hty, if_pos rfl]
  by_cases heq : ph.reach_temp = u32_of_q t
  · rw [if_pos (hiff.mpr heq), if_pos heq]
    simp
  · rw [if_neg (fun hc => heq (hiff.mp hc)), if_neg heq]
    simp

/-- Witness for C7's amended theorem: in Preheat (target 125) a reading
of 125.3 truncates to 125, so the event is posted. -/
theorem c7_reach_temp_post_iff_truncated_equality_witness :
    pidPhase reflow_ao_preheat = some ⟨PhaseType.REACHTEMP, 125, 0⟩ ∧
      (⟨PhaseType.REACHTEMP, 125, 0⟩ : Reflow_Phase).phase_type = REACHTEMP ∧
      1 ≤ u32_of_q (1253 / 10) ∧ u32_of_q (1253 / 10) < 2 ^ 32 - 1 ∧
      (reflow_pid_iteration (some (1253 / 10)) reflow_ao_preheat).map
          (fun c => c.posted) =
        some (reflow_ao_preheat.posted ++
          if (⟨PhaseType.REACHTEMP, 125, 0⟩ : Reflow_Phase).reach_temp = u32_of_q (1253 / 10)
          then [REACH_TEMP_SIG] else []) :=
  ⟨by simp [pidPhase, reflow_ao_preheat, reflow_ao_init, reflow_phases_init,
     PREHEAT_STATE],
   rfl,
   by norm_num [u32_of_q]; decide,
   by norm_num [u32_of_q]; decide,
   c7_reach_temp_post_iff_truncated_equality reflow_ao_preheat (1253 / 10)
     ⟨PhaseType.REACHTEMP, 125, 0⟩
     (by simp [pidPhase, reflow_ao_preheat, reflow_ao_init, reflow_phases_init,
       PREHEAT_STATE])
     rfl (by norm_num [u32_of_q]; decide) (by norm_num [u32_of_q]; decide)⟩

/-- C4: dispatch calls exactly the one table cell indexed by the current
state and the event's signal; when that action returns the transition or
initial-transition status, the entry action of the (new) current state
is executed exactly once afterwards; when it returns handled or ignored,
no entry or exit action runs.  The trace (second component of the
handler's result) lists every table cell invoked, in order. -/
theorem c4_dispatch_follows_table (sensor : Option ℚ) (ao : Reflow_Active)
    (evt : Event) (hs : ao.state < NUM_REFLOW_STATES)
    (hg : evt.sig < NUM_REFLOW_SIGS) :
    ∃ act : ReflowAction,
      tableCell ao.state evt.sig = some act ∧
      (((runAction act sensor ao).2 = TRAN_STATUS ∨
          (runAction act sensor ao).2 = INIT_STATUS) →
        ∃ entryAct : ReflowAction,
          tableCell (runAction act sensor ao).1.state ENTRY_SIG = some entryAct ∧
          reflow_evt_handler sensor ao evt =
            some ((runAction entryAct sensor (runAction act sensor ao).1).1,
                  [(ao.state, evt.sig), ((runAction act sensor ao).1.state, ENTRY_SIG)])) ∧
      (((runAction act sensor ao).2 = HANDLED_STATUS ∨
          (runAction act sensor ao).2 = IGNORE_STATUS) →
        reflow_evt_handler sensor ao evt =
          some ((runAction act sensor ao).1, [(ao.state, evt.sig)])) := by
  obtain ⟨act, hact⟩ :=
    Option.isSome_iff_exists.mp (tableCell_isSome ao.state hs evt.sig hg)
  refine ⟨act, hact, ?_, ?_⟩
  · intro hst
    have h1 := runAction_state_lt act sensor ao hs
    obtain ⟨eact, heact⟩ :=
      Option.isSome_iff_exists.mp
        (tableCell_isSome (runAction act sensor ao).1.state h1 ENTRY_SIG (by decide))
    refine ⟨eact, heact, ?_⟩
    unfold reflow_evt_handler
    rw [if_pos ⟨hs, hg⟩]
    rcases hr : runAction act sensor ao with ⟨ao1, stat⟩
    rw [hr] at hst heact
    simp only [hact, hr] at *
    rw [if_pos hst]
    simp only [heact]
  · intro hst
    have hst' : ¬ ((runAction act sensor ao).2 = TRAN_STATUS ∨
        (runAction act sensor ao).2 = INIT_STATUS) := by
      rcases hst with h | h <;> simp [h]
    unfold reflow_evt_handler
    rw [if_pos ⟨hs, hg⟩]
    rcases hr : runAction act sensor ao with ⟨ao1, stat⟩
    rw [hr] at hst'
    simp only [hact, hr] at *
    rw [if_neg hst']

/-- Witness for C4: dispatching `STOP_REFLOW_SIG` in the Reset state
(where the cell holds the ignore action). -/
theorem c4_dispatch_follows_table_witness :
    reflow_ao_init.state < NUM_REFLOW_STATES ∧
      (⟨STOP_REFLOW_SIG⟩ : Event).sig < NUM_REFLOW_SIGS ∧
      ∃ act : ReflowAction,
        tableCell reflow_ao_init.state (⟨STOP_REFLOW_SIG⟩ : Event).sig = some act ∧
        (((runAction act none reflow_ao_init).2 = TRAN_STATUS ∨
            (runAction act none reflow_ao_init).2 = INIT_STATUS) →
          ∃ entryAct : ReflowAction,
            tableCell (runAction act none reflow_ao_init).1.state ENTRY_SIG = some entryAct ∧
            reflow_evt_handler none reflow_ao_init ⟨STOP_REFLOW_SIG⟩ =
              some ((runAction entryAct none (runAction act none reflow_ao_init).1).1,
                    [(reflow_ao_init.state, (⟨STOP_REFLOW_SIG⟩ : Event).sig),
                     ((runAction act none reflow_ao_init).1.state, ENTRY_SIG)])) ∧
        (((runAction act none reflow_ao_init).2 = HANDLED_STATUS ∨
            (runAction act none reflow_ao_init).2 = IGNORE_STATUS) →
          reflow_evt_handler none reflow_ao_init ⟨STOP_REFLOW_SIG⟩ =
            some ((runAction act none reflow_ao_init).1,
                  [(reflow_ao_init.state, (⟨STOP_REFLOW_SIG⟩ : Event).sig)])) :=
  ⟨by decide, by decide,
   c4_dispatch_follows_table none reflow_ao_init ⟨STOP_REFLOW_SIG⟩ (by decide) (by decide)⟩

/-- Run a sequence of events through the reflow event handler, each
paired with the sensor outcome seen during its dispatch; `none` when
an assertion or table access failed along the way. -/
def runEvents (evs : List (Option ℚ × Event)) (ao : Reflow_Active) :
    Option Reflow_Active :=
  match evs with
  | [] => some ao
  | (sensor, evt) :: rest =>
      match reflow_evt_handler sensor ao evt with
      | none => none
      | some r => runEvents rest r.1

/-- C10: every reflow action either leaves the state field unchanged or
writes a named enumerator below `NUM_REFLOW_STATES`; consequently, for
every sequence of dispatched events with in-range signals starting from
a valid state (in particular the Reset state), every dispatch succeeds —
the handler's bounds assertion on the state never fails — and the state
keeps indexing a valid table row. -/
theorem c10_state_bounds_invariant :
    (∀ (a : ReflowAction) (sensor : Option ℚ) (ao : Reflow_Active),
        (runAction a sensor ao).1.state = ao.state ∨
          (runAction a sensor ao).1.state < NUM_REFLOW_STATES) ∧
      ∀ (evs : List (Option ℚ × Event)) (ao : Reflow_Active),
        ao.state < NUM_REFLOW_STATES →
        (∀ p ∈ evs, p.2.sig < NUM_REFLOW_SIGS) →
        ∃ ao', runEvents evs ao = some ao' ∧ ao'.state < NUM_REFLOW_STATES := by
  constructor
  · intro a sensor ao
    cases a <;> cases sensor <;>
      simp [runAction, NUM_REFLOW_STATES, RESET_STATE, PREHEAT_STATE, SOAK_STATE,
        RAMPUP_STATE, PEAK_STATE, COOLDOWN_STATE]
    split <;> simp
  · intro evs
    induction evs with
    | nil => intro ao hs _; exact ⟨ao, rfl, hs⟩
    | cons p rest ih =>
        intro ao hs hb
        obtain ⟨sensor, evt⟩ := p
        obtain ⟨r, hr, hlt⟩ :=
          reflow_evt_handler_total sensor ao evt hs (hb _ (List.mem_cons_self _ _))
        obtain ⟨ao', hrun, hlt'⟩ :=
          ih r.1 hlt (fun q hq => hb q (List.mem_cons_of_mem _ hq))
        exact ⟨ao', by simp [runEvents, hr, hrun], hlt'⟩

/-- Witness for C10: a START dispatch from the freshly initialized
Reset-state object (with a failing sensor read) succeeds and leaves the
state within bounds. -/
theorem c10_state_bounds_invariant_witness :
    reflow_ao_init.state < NUM_REFLOW_STATES ∧
      (∀ p ∈ [((none : Option ℚ), (⟨START_REFLOW_SIG⟩ : Event))],
        p.2.sig < NUM_REFLOW_SIGS) ∧
      ∃ ao', runEvents [((none : Option ℚ), (⟨START_REFLOW_SIG⟩ : Event))] reflow_ao_init =
          some ao' ∧ ao'.state < NUM_REFLOW_STATES :=
  ⟨by decide, by decide,
   c10_state_bounds_invariant.2 [((none : Option ℚ), (⟨START_REFLOW_SIG⟩ : Event))]
     reflow_ao_init (by decide) (by decide)⟩
